import Mathlib

/-!
Verification of the haelu health-status aggregation core.

The definitions below are a shallow embedding of the Go sources:
`status.go`, `error.go`, `subsystem.go` (the revision whose metadata field
is named Attributes) and `monitor.go` (the listener revision, which the
specification adopts as canonical), together with the event fan-out file
defining MonitorEvent and MonitorListeners.

Timestamps are modelled as natural numbers; the current wall-clock time
that Go reads via time.Now().UTC() is passed as an explicit argument.
Listener identities are opaque and modelled as natural numbers; a
dispatch is modelled by the list of (listener, event) calls it makes,
in the order the calls are made.
-/

set_option autoImplicit false

namespace Haelu

/-- Status from status.go: a uint8 with the three declared constants
StatusGood = 0, StatusWarn = 1, StatusBad = 2. -/
inductive Status where
  | good
  | warn
  | bad
deriving DecidableEq, Repr, Fintype

/-- The underlying uint8 value of each declared Status constant. -/
def Status.toNat : Status → Nat
  | .good => 0
  | .warn => 1
  | .bad => 2

/-- The Go comparison a > b on the underlying uint8 values of two statuses. -/
def statusGt (a b : Status) : Bool := b.toNat < a.toNat

/-- Larger of two statuses under the uint8 order; statusMax a b is the value
of the Go assignment pattern: if b > a then b else keep a. -/
def statusMax (a b : Status) : Status := if statusGt b a then b else a

/-- Go error values relevant to error.go, closed under the Unwrap chain.
The statusError constructor is the struct of error.go: it carries a wrapped
error and a status field, and declares exactly the methods Error() string and
Unwrap() error, so it does not itself satisfy the SelfStatuser or SelfBooler
interfaces. The selfStatus and selfBool constructors stand for client error
types implementing SelfStatuser and SelfBooler respectively. -/
inductive GoError where
  | base (msg : String)
  | selfStatus (status : Status) (msg : String)
  | selfBool (status : Bool) (msg : String)
  | statusError (err : GoError) (status : Status)
deriving DecidableEq, Repr

/-- The Unwrap method: only the statusError struct declares Unwrap. -/
def Unwrap : GoError → Option GoError
  | .statusError e _ => some e
  | _ => none

/-- errors.As(err, &s) for a target of interface type SelfStatuser: walk the
Unwrap chain and return the status reported by the first error that
implements SelfStatuser. The statusError struct of error.go does not declare
a method Status() Status, so errors.As unwraps past it. -/
def asSelfStatuser : GoError → Option Status
  | .selfStatus s _ => some s
  | .statusError e _ => asSelfStatuser e
  | _ => none

/-- errors.As(err, &b) for a target of interface type SelfBooler. -/
def asSelfBooler : GoError → Option Bool
  | .selfBool b _ => some b
  | .statusError e _ => asSelfBooler e
  | _ => none

/-- AddStatus from error.go: wrap err in a statusError carrying the status. -/
def AddStatus (err : GoError) (status : Status) : GoError :=
  .statusError err status

/-- ErrorStatus from error.go. A nil error is modelled as none. -/
def ErrorStatus : Option GoError → Status
  | none => .good
  | some e =>
    match asSelfStatuser e with
    | some s => s
    | none =>
      match asSelfBooler e with
      | some true => .good
      | some false => .bad
      | none => .bad

/-- Attributes from subsystem.go: map[string]any, modelled as a list of
string pairs. -/
abbrev Attributes := List (String × String)

/-- Attributes.Clone: a shallow copy of the pairs; an empty Attributes
clones to the nil (empty) Attributes. -/
def Attributes.clone (a : Attributes) : Attributes :=
  if a.length = 0 then [] else a

/-- Definition from subsystem.go. The Probe closure itself is not modelled;
hasProbe records whether the Probe field is nil, which is what the monitor
code branches on. ProbeInterval is a time.Duration, an int64. -/
structure Definition where
  name : String
  status : Status
  nonCritical : Bool
  hasProbe : Bool
  probeInterval : Int
  attributes : Attributes
deriving DecidableEq, Repr

/-- Subsystem from subsystem.go: the mutable snapshot of one subsystem. -/
structure Subsystem where
  name : String
  status : Status
  lastUpdate : Nat
  lastError : Option GoError
  nonCritical : Bool
  attributes : Attributes
deriving DecidableEq, Repr

/-- The Go zero value of the Subsystem struct, as produced by
make([]Subsystem, n) in NewMonitor. -/
def Subsystem.zero : Subsystem :=
  { name := ""
    status := .good
    lastUpdate := 0
    lastError := none
    nonCritical := false
    attributes := [] }

/-- subsystemTracker from monitor.go: the definition together with the
Subsystem snapshot it points at. The inherited lock, timer factory and
status-update closure are represented by the operations below acting on
the whole Monitor. -/
structure SubsystemTracker where
  definition : Definition
  current : Subsystem
deriving DecidableEq, Repr

/-- An opaque MonitorListener identity. -/
abbrev MonitorListener := Nat

/-- MonitorEvent from the event fan-out file: the data handed to each sink. -/
structure MonitorEvent where
  status : Status
  lastUpdate : Nat
  subsystemCount : Nat
  subsystems : List Subsystem
deriving DecidableEq, Repr

/-- MonitorListeners.OnMonitorEvent: call each listener with the event, in
slice order. The result is the list of calls made, in order. -/
def onMonitorEvent (ls : List MonitorListener) (e : MonitorEvent) :
    List (MonitorListener × MonitorEvent) :=
  ls.map (fun l => (l, e))

/-- Monitor from monitor.go (the listener revision). The cancel field is
true exactly when the context.CancelFunc is non-nil, i.e. the monitor has
been started and not since shut down. -/
structure Monitor where
  defaultProbeInterval : Int
  trackers : List SubsystemTracker
  listeners : List MonitorListener
  status : Status
  lastUpdate : Nat
  cancel : Bool
deriving DecidableEq, Repr

/-- The subsystems slice of the monitor: trackers hold pointers into it, so
its content is the current snapshot of each tracker, in order. -/
def Monitor.subsystems (m : Monitor) : List Subsystem :=
  m.trackers.map SubsystemTracker.current

/-- The accumulator loop in the status-recompute method of monitor.go:
one pass over the trackers maintaining the running criticalStatus and
nonCriticalStatus, where a tracker raises the accumulator for its
criticality class only when its current status is strictly greater. -/
def statusFold : List SubsystemTracker → Status → Status → Status × Status
  | [], critical, nonCritical => (critical, nonCritical)
  | t :: rest, critical, nonCritical =>
    if t.definition.nonCritical && statusGt t.current.status nonCritical then
      statusFold rest critical t.current.status
    else if !t.definition.nonCritical && statusGt t.current.status critical then
      statusFold rest t.current.status nonCritical
    else
      statusFold rest critical nonCritical

/-- The overall status computed by the recompute method of monitor.go:
criticalStatus if it is not Good, else Warn if nonCriticalStatus is not
Good, else Good. -/
def computeOverall (trackers : List SubsystemTracker) : Status :=
  let p := statusFold trackers .good .good
  if p.1 ≠ Status.good then p.1
  else if p.2 ≠ Status.good then Status.warn
  else Status.good

/-- The body of the status-update method of monitor.go (named with an
unsafe prefix there because it must run under the monitor lock): record the
supplied timestamp, recompute the overall status from the trackers, build
the MonitorEvent and dispatch it to the listeners. Returns the new monitor,
the event, and the dispatch calls made. -/
def Monitor.updateStatusUnderLock (m : Monitor) (timestamp : Nat) :
    Monitor × MonitorEvent × List (MonitorListener × MonitorEvent) :=
  let m1 : Monitor :=
    { m with lastUpdate := timestamp, status := computeOverall m.trackers }
  let e : MonitorEvent :=
    { status := m1.status
      lastUpdate := m1.lastUpdate
      subsystemCount := m1.subsystems.length
      subsystems := m1.subsystems }
  (m1, e, onMonitorEvent m1.listeners e)

/-- Replace the element at index i of a tracker list with its image under f;
out-of-range indices leave the list unchanged. -/
def modifyTracker (l : List SubsystemTracker) (i : Nat)
    (f : SubsystemTracker → SubsystemTracker) : List SubsystemTracker :=
  match l, i with
  | [], _ => []
  | t :: rest, 0 => f t :: rest
  | t :: rest, n + 1 => t :: modifyTracker rest n f

/-- subsystemTracker.Update from monitor.go, acting on the tracker at
index i under the monitor lock: set the status, last error and last-update
timestamp of that subsystem to the supplied values (now models the value of
time.Now().UTC() read inside the locked region), then run the monitor
status update with that same timestamp. -/
def Monitor.update (m : Monitor) (i : Nat) (s : Status) (err : Option GoError)
    (now : Nat) :
    Monitor × MonitorEvent × List (MonitorListener × MonitorEvent) :=
  let m1 : Monitor :=
    { m with
      trackers := modifyTracker m.trackers i (fun t =>
        { t with current :=
            { t.current with status := s, lastError := err, lastUpdate := now } }) }
  m1.updateStatusUnderLock now

/-- The sentinel errors of monitor.go plus the construction failure. -/
inductive MonitorErr where
  | errMonitorStarted
  | errMonitorShutdown
deriving DecidableEq, Repr

/-- Monitor.Start from monitor.go: fail with ErrMonitorStarted when the
cancel function is already set; otherwise recompute and publish with the
current time, create the cancellable lifetime, and launch the probe tasks
(whose goroutines have no further effect on the modelled state). -/
def Monitor.start (m : Monitor) (now : Nat) :
    Option MonitorErr × Monitor × List (MonitorListener × MonitorEvent) :=
  if m.cancel then (some .errMonitorStarted, m, [])
  else
    let r := m.updateStatusUnderLock now
    (none, { r.1 with cancel := true }, r.2.2)

/-- Monitor.Shutdown from monitor.go: fail with ErrMonitorShutdown when the
cancel function is nil; otherwise cancel the lifetime and clear it. -/
def Monitor.shutdown (m : Monitor) : Option MonitorErr × Monitor :=
  if m.cancel then (none, { m with cancel := false })
  else (some .errMonitorShutdown, m)

/-- DefaultProbeInterval: 2 * time.Minute in nanoseconds. -/
def defaultProbeIntervalConst : Int := 120000000000

/-- The monitor options relevant to construction. -/
inductive MonitorOption where
  | withDefaultProbeInterval (i : Int)
  | withSubsystem (d : Definition)
  | withListeners (ls : List MonitorListener)
deriving DecidableEq, Repr

/-- The names registered so far, i.e. the keys of the byName map. -/
def trackerNames (m : Monitor) : List String :=
  m.trackers.map (fun t => t.definition.name)

/-- The tracker appended by the WithSubsystem option: the definition with
its Attributes replaced by a clone, and a yet-uninitialized snapshot. -/
def rawTracker (d : Definition) : SubsystemTracker :=
  { definition := { d with attributes := d.attributes.clone }
    current := Subsystem.zero }

/-- Apply one MonitorOption, as in monitor.go: WithDefaultProbeInterval
replaces a nonpositive argument by the default; WithSubsystem fails when the
byName map already holds the name, and otherwise registers the tracker;
WithListeners appends the listeners. -/
def applyOption (m : Monitor) : MonitorOption → Except String Monitor
  | .withDefaultProbeInterval i =>
    .ok { m with
          defaultProbeInterval := if i ≤ 0 then defaultProbeIntervalConst else i }
  | .withSubsystem d =>
    if d.name ∈ trackerNames m then
      .error ("A subsystem with the name [" ++ d.name ++ "] already exists")
    else
      .ok { m with trackers := m.trackers ++ [rawTracker d] }
  | .withListeners ls =>
    .ok { m with listeners := m.listeners ++ ls }

/-- The option loop of NewMonitor: apply each option in order, stopping at
the first error. -/
def applyOptions : Monitor → List MonitorOption → Except String Monitor
  | m, [] => .ok m
  | m, o :: rest =>
    match applyOption m o with
    | .error e => .error e
    | .ok m1 => applyOptions m1 rest

/-- The per-tracker initialization pass of NewMonitor in monitor.go.
Starting from the zero-valued snapshot, the source assigns exactly three
snapshot fields: Status from the definition, Attributes from the
definition, and LastUpdate from the shared initial timestamp (the Name and
NonCritical snapshot fields are not assigned). It then normalizes the probe
interval: zero when there is no probe, the default when the configured
interval is nonpositive. -/
def initTracker (defaultInterval : Int) (initialLastUpdate : Nat)
    (t : SubsystemTracker) : SubsystemTracker :=
  { definition :=
      if !t.definition.hasProbe then
        { t.definition with probeInterval := 0 }
      else if t.definition.probeInterval ≤ 0 then
        { t.definition with probeInterval := defaultInterval }
      else t.definition
    current :=
      { t.current with
        status := t.definition.status
        attributes := t.definition.attributes
        lastUpdate := initialLastUpdate } }

/-- The Monitor literal at the top of NewMonitor: empty subsystem set,
default probe interval, overall status StatusGood, zero time, not started. -/
def emptyMonitor : Monitor :=
  { defaultProbeInterval := defaultProbeIntervalConst
    trackers := []
    listeners := []
    status := .good
    lastUpdate := 0
    cancel := false }

/-- NewMonitor from monitor.go: apply the options, then run the
initialization pass over the trackers with one shared initial timestamp
(initialLastUpdate models the value of time.Now().UTC() read there).
No initial aggregate recompute is performed. -/
def NewMonitor (opts : List MonitorOption) (initialLastUpdate : Nat) :
    Except String Monitor :=
  match applyOptions emptyMonitor opts with
  | .error e => .error e
  | .ok m1 =>
    .ok { m1 with
          trackers := m1.trackers.map
            (initTracker m1.defaultProbeInterval initialLastUpdate) }

/-- Construction from a list of subsystem definitions, i.e. NewMonitor
applied to one WithSubsystem option per definition, in order. -/
def newMonitorOf (defs : List Definition) (initialLastUpdate : Nat) :
    Except String Monitor :=
  NewMonitor (defs.map MonitorOption.withSubsystem) initialLastUpdate

/-- The names of a list of definitions. -/
def namesOf (defs : List Definition) : List String :=
  defs.map Definition.name

/-- The current statuses of the critical trackers, in order. -/
def criticalStatuses (ts : List SubsystemTracker) : List Status :=
  (ts.filter (fun t => !t.definition.nonCritical)).map (fun t => t.current.status)

/-- The current statuses of the noncritical trackers, in order. -/
def nonCriticalStatuses (ts : List SubsystemTracker) : List Status :=
  (ts.filter (fun t => t.definition.nonCritical)).map (fun t => t.current.status)

/-- The maximum severity in a list of statuses, Good when the list is empty. -/
def maxStatus (l : List Status) : Status := l.foldl statusMax .good

/-- Some status in the list differs from Good. -/
def anyNotGood (l : List Status) : Prop := ∃ s ∈ l, s ≠ Status.good

instance anyNotGoodDecidable (l : List Status) : Decidable (anyNotGood l) :=
  List.decidableBEx _ l

/-- Modelled from the spec: the reference aggregation formula as the claim
states it. Bad if any critical subsystem has status Bad; otherwise the
maximum severity over critical subsystems when that is not Good; otherwise
Warn when some noncritical subsystem has a status other than Good;
otherwise Good. -/
def specOverall (ts : List SubsystemTracker) : Status :=
  if Status.bad ∈ criticalStatuses ts then Status.bad
  else if maxStatus (criticalStatuses ts) ≠ Status.good then
    maxStatus (criticalStatuses ts)
  else if anyNotGood (nonCriticalStatuses ts) then Status.warn
  else Status.good

/-- Modelled from the spec: the reference aggregation formula applied
directly to the initial statuses and criticality flags of a list of
subsystem definitions. -/
def specOverallOfDefs (defs : List Definition) : Status :=
  if Status.bad ∈ (defs.filter (fun d => !d.nonCritical)).map Definition.status then
    Status.bad
  else if maxStatus ((defs.filter (fun d => !d.nonCritical)).map Definition.status)
      ≠ Status.good then
    maxStatus ((defs.filter (fun d => !d.nonCritical)).map Definition.status)
  else if anyNotGood ((defs.filter (fun d => d.nonCritical)).map Definition.status) then
    Status.warn
  else Status.good

theorem statusMax_good_left (a : Status) : statusMax .good a = a := by
  cases a <;> rfl

theorem statusMax_good_right (a : Status) : statusMax a .good = a := by
  cases a <;> rfl

theorem statusMax_assoc (a b c : Status) :
    statusMax (statusMax a b) c = statusMax a (statusMax b c) := by
  cases a <;> cases b <;> cases c <;> rfl

theorem statusMax_eq_bad_iff (a b : Status) :
    statusMax a b = .bad ↔ a = .bad ∨ b = .bad := by
  cases a <;> cases b <;> decide

theorem statusMax_eq_good_iff (a b : Status) :
    statusMax a b = .good ↔ a = .good ∧ b = .good := by
  cases a <;> cases b <;> decide

theorem foldl_statusMax_acc (l : List Status) :
    ∀ a : Status, l.foldl statusMax a = statusMax a (maxStatus l) := by
  induction l with
  | nil =>
    intro a
    simp [maxStatus, statusMax_good_right]
  | cons s rest ih =>
    intro a
    simp only [maxStatus, List.foldl_cons]
    rw [ih (statusMax a s), ih (statusMax Status.good s), statusMax_good_left,
      statusMax_assoc]

theorem maxStatus_cons (s : Status) (l : List Status) :
    maxStatus (s :: l) = statusMax s (maxStatus l) := by
  simp only [maxStatus, List.foldl_cons]
  rw [foldl_statusMax_acc, statusMax_good_left]
  rfl

theorem maxStatus_eq_bad_iff (l : List Status) :
    maxStatus l = .bad ↔ Status.bad ∈ l := by
  induction l with
  | nil => simp [maxStatus]
  | cons s rest ih =>
    rw [maxStatus_cons, statusMax_eq_bad_iff, ih]
    constructor
    · rintro (h | h)
      · exact h ▸ List.mem_cons_self s rest
      · exact List.mem_cons_of_mem s h
    · intro h
      rcases List.mem_cons.mp h with h | h
      · exact Or.inl h.symm
      · exact Or.inr h

theorem maxStatus_eq_good_iff (l : List Status) :
    maxStatus l = .good ↔ ∀ s ∈ l, s = Status.good := by
  induction l with
  | nil => simp [maxStatus]
  | cons s rest ih =>
    rw [maxStatus_cons, statusMax_eq_good_iff, ih]
    simp

theorem statusFold_eq (ts : List SubsystemTracker) :
    ∀ c nc : Status,
      statusFold ts c nc =
        ((criticalStatuses ts).foldl statusMax c,
         (nonCriticalStatuses ts).foldl statusMax nc) := by
  induction ts with
  | nil =>
    intro c nc
    rfl
  | cons t rest ih =>
    intro c nc
    cases hnc : t.definition.nonCritical with
    | true =>
      have hc : criticalStatuses (t :: rest) = criticalStatuses rest := by
        simp [criticalStatuses, List.filter_cons, hnc]
      have hn : nonCriticalStatuses (t :: rest) =
          t.current.status :: nonCriticalStatuses rest := by
        simp [nonCriticalStatuses, List.filter_cons, hnc]
      rw [hc, hn]
      simp only [statusFold, hnc, Bool.true_and, Bool.not_true, Bool.false_and,
        if_false, List.foldl_cons, Bool.false_eq_true]
      cases hgt : statusGt t.current.status nc with
      | true =>
        rw [if_pos rfl, ih]
        have : statusMax nc t.current.status = t.current.status := by
          unfold statusMax
          rw [hgt, if_pos rfl]
        rw [this]
      | false =>
        rw [if_neg (by simp), ih]
        have : statusMax nc t.current.status = nc := by
          unfold statusMax
          rw [hgt]
          simp
        rw [this]
    | false =>
      have hc : criticalStatuses (t :: rest) =
          t.current.status :: criticalStatuses rest := by
        simp [criticalStatuses, List.filter_cons, hnc]
      have hn : nonCriticalStatuses (t :: rest) = nonCriticalStatuses rest := by
        simp [nonCriticalStatuses, List.filter_cons, hnc]
      rw [hc, hn]
      simp only [statusFold, hnc, Bool.false_and, Bool.not_false, Bool.true_and,
        if_false, List.foldl_cons, Bool.false_eq_true]
      cases hgt : statusGt t.current.status c with
      | true =>
        rw [if_pos rfl, ih]
        have : statusMax c t.current.status = t.current.status := by
          unfold statusMax
          rw [hgt, if_pos rfl]
        rw [this]
      | false =>
        rw [if_neg (by simp), ih]
        have : statusMax c t.current.status = c := by
          unfold statusMax
          rw [hgt]
          simp
        rw [this]

theorem computeOverall_eq_spec (ts : List SubsystemTracker) :
    computeOverall ts = specOverall ts := by
  unfold computeOverall specOverall
  rw [statusFold_eq ts Status.good Status.good]
  show (if maxStatus (criticalStatuses ts) ≠ Status.good
        then maxStatus (criticalStatuses ts)
        else if maxStatus (nonCriticalStatuses ts) ≠ Status.good
        then Status.warn else Status.good) = _
  by_cases hb : Status.bad ∈ criticalStatuses ts
  · have hmax : maxStatus (criticalStatuses ts) = Status.bad :=
      (maxStatus_eq_bad_iff _).mpr hb
    rw [if_pos hb, hmax, if_pos (show Status.bad ≠ Status.good by decide)]
  · rw [if_neg hb]
    by_cases hg : maxStatus (criticalStatuses ts) = Status.good
    · have hgne : ¬ (maxStatus (criticalStatuses ts) ≠ Status.good) := by
        simpa using hg
      rw [if_neg hgne, if_neg hgne]
      have hiff : maxStatus (nonCriticalStatuses ts) ≠ Status.good ↔
          anyNotGood (nonCriticalStatuses ts) := by
        rw [Ne, maxStatus_eq_good_iff, anyNotGood]
        push_neg
        rfl
      by_cases hnc : anyNotGood (nonCriticalStatuses ts)
      · rw [if_pos (hiff.mpr hnc), if_pos hnc]
      · rw [if_neg (fun h => hnc (hiff.mp h)), if_neg hnc]
    · rw [if_pos hg, if_pos hg]

/-- Claim C1: for every monitor state, the recomputed overall status equals
the reference formula (Bad if any critical subsystem is Bad, otherwise the
maximum severity over critical subsystems when that is not Good, otherwise
Warn when any noncritical subsystem is not Good, otherwise Good); and
whenever no critical subsystem is worse than Good, the overall status is
never Bad, regardless of the noncritical statuses. -/
theorem overall_matches_reference (ts : List SubsystemTracker) :
    computeOverall ts = specOverall ts ∧
    ((∀ t ∈ ts, t.definition.nonCritical = false → t.current.status = Status.good) →
      computeOverall ts ≠ Status.bad) := by
  refine ⟨computeOverall_eq_spec ts, fun h => ?_⟩
  rw [computeOverall_eq_spec ts]
  have hall : ∀ s ∈ criticalStatuses ts, s = Status.good := by
    intro s hs
    rcases List.mem_map.mp hs with ⟨t, htf, hts⟩
    rcases List.mem_filter.mp htf with ⟨htm, hcrit⟩
    have : t.definition.nonCritical = false := by
      simpa using hcrit
    exact hts ▸ h t htm this
  have hb : Status.bad ∉ criticalStatuses ts := by
    intro hmem
    exact absurd (hall _ hmem) (by decide)
  have hg : maxStatus (criticalStatuses ts) = Status.good :=
    (maxStatus_eq_good_iff _).mpr hall
  unfold specOverall
  rw [if_neg hb, if_neg (by simpa using hg)]
  by_cases hnc : anyNotGood (nonCriticalStatuses ts)
  · rw [if_pos hnc]
    decide
  · rw [if_neg hnc]
    decide

/-- A noncritical subsystem whose current status is Bad, used as the
concrete input of the witness below. -/
def trNoncritBad : SubsystemTracker :=
  { definition :=
      { name := "b", status := .good, nonCritical := true, hasProbe := false
        probeInterval := 0, attributes := [] }
    current := { Subsystem.zero with status := .bad, nonCritical := true } }

theorem overall_matches_reference_witness :
    computeOverall [trNoncritBad] ≠ Status.bad :=
  (overall_matches_reference [trNoncritBad]).2 (by decide)

theorem modifyTracker_getElem (l : List SubsystemTracker)
    (f : SubsystemTracker → SubsystemTracker) :
    ∀ i j : Nat,
      (modifyTracker l i f)[j]? = if j = i then (l[j]?).map f else l[j]? := by
  induction l with
  | nil =>
    intro i j
    simp [modifyTracker]
  | cons t rest ih =>
    intro i j
    cases i with
    | zero =>
      cases j with
      | zero => simp [modifyTracker]
      | succ jn => simp [modifyTracker]
    | succ n =>
      cases j with
      | zero => simp [modifyTracker]
      | succ jn => simp [modifyTracker, ih n jn]

/-- Claim C3: updating subsystem i with (s, err) at current time now performs
exactly the locked sequence: subsystem i's snapshot gets status s, last
error err and last-update timestamp now; the monitor's aggregate is
recomputed from the mutated trackers; the resulting event carries that
recomputed status, the snapshot list, and a LastUpdate equal to the
subsystem's new last-update timestamp; the event is fanned out to the
registered listeners; and every other subsystem's snapshot, the listener
list, the lifetime flag and the default probe interval are unchanged. -/
theorem update_locked_sequence (m : Monitor) (i : Nat) (s : Status)
    (err : Option GoError) (now : Nat) (tr : SubsystemTracker)
    (h : m.trackers[i]? = some tr) :
    (m.update i s err now).1.trackers[i]? =
      some { tr with current :=
        { tr.current with status := s, lastError := err, lastUpdate := now } } ∧
    (m.update i s err now).1.lastUpdate = now ∧
    (m.update i s err now).2.1.lastUpdate = now ∧
    (m.update i s err now).1.status =
      computeOverall (m.update i s err now).1.trackers ∧
    (m.update i s err now).2.1.status = (m.update i s err now).1.status ∧
    (m.update i s err now).2.1.subsystems = (m.update i s err now).1.subsystems ∧
    (m.update i s err now).2.2 =
      onMonitorEvent m.listeners (m.update i s err now).2.1 ∧
    (∀ j, j ≠ i → (m.update i s err now).1.trackers[j]? = m.trackers[j]?) ∧
    (m.update i s err now).1.listeners = m.listeners ∧
    (m.update i s err now).1.cancel = m.cancel ∧
    (m.update i s err now).1.defaultProbeInterval = m.defaultProbeInterval := by
  have ht : (m.update i s err now).1.trackers =
      modifyTracker m.trackers i (fun t =>
        { t with current :=
            { t.current with status := s, lastError := err, lastUpdate := now } }) :=
    rfl
  refine ⟨?_, rfl, rfl, rfl, rfl, rfl, rfl, ?_, rfl, rfl, rfl⟩
  · rw [ht, modifyTracker_getElem, if_pos rfl, h]
    rfl
  · intro j hj
    rw [ht, modifyTracker_getElem, if_neg hj]

/-- A critical subsystem tracker used in concrete witness inputs. -/
def trCriticalGoodA : SubsystemTracker :=
  { definition :=
      { name := "a", status := .good, nonCritical := false
        hasProbe := false, probeInterval := 0, attributes := [] }
    current := { Subsystem.zero with status := .good } }

/-- A concrete monitor with one critical subsystem and two listeners, used
as the concrete input of several witnesses. -/
def monitorOne : Monitor :=
  { defaultProbeInterval := defaultProbeIntervalConst
    trackers := [trCriticalGoodA]
    listeners := [0, 1]
    status := .good
    lastUpdate := 0
    cancel := false }

theorem update_locked_sequence_witness :
    (monitorOne.update 0 Status.bad none 7).1.lastUpdate = 7 ∧
    (monitorOne.update 0 Status.bad none 7).2.1.lastUpdate = 7 ∧
    (monitorOne.update 0 Status.bad none 7).1.status =
      computeOverall (monitorOne.update 0 Status.bad none 7).1.trackers := by
  have h :=
    update_locked_sequence monitorOne 0 Status.bad none 7 trCriticalGoodA rfl
  exact ⟨h.2.1, h.2.2.1, h.2.2.2.1⟩

/-- Claim C4: one recomputation dispatches the recomputed event to the
registered sinks synchronously: the call list is exactly one call per
registered listener carrying the same event, in registration order; and the
event's SubsystemCount equals the number of subsystems configured in the
monitor. When the registered listeners are distinct, every registered
listener is called exactly once. -/
theorem listener_fanout (m : Monitor) (t : Nat) :
    (m.updateStatusUnderLock t).2.2 =
      m.listeners.map (fun l => (l, (m.updateStatusUnderLock t).2.1)) ∧
    ((m.updateStatusUnderLock t).2.2).map Prod.fst = m.listeners ∧
    ((m.updateStatusUnderLock t).2.2).length = m.listeners.length ∧
    (m.updateStatusUnderLock t).2.1.subsystemCount = m.trackers.length ∧
    (m.listeners.Nodup → ∀ l ∈ m.listeners,
      (((m.updateStatusUnderLock t).2.2).map Prod.fst).count l = 1) := by
  have hfst : ((m.updateStatusUnderLock t).2.2).map Prod.fst = m.listeners := by
    show (m.listeners.map fun l => (l, (m.updateStatusUnderLock t).2.1)).map
        Prod.fst = m.listeners
    simp [Function.comp_def]
  refine ⟨rfl, hfst, ?_, ?_, ?_⟩
  · show (m.listeners.map fun l => (l, (m.updateStatusUnderLock t).2.1)).length =
      m.listeners.length
    rw [List.length_map]
  · show (m.subsystems).length = m.trackers.length
    rw [Monitor.subsystems, List.length_map]
  · intro hnd l hl
    rw [hfst]
    exact List.count_eq_one_of_mem hnd hl

theorem listener_fanout_witness :
    (((monitorOne.updateStatusUnderLock 4).2.2).map Prod.fst).count 1 = 1 :=
  (listener_fanout monitorOne 4).2.2.2.2 (by decide) 1 (by decide)

/-- Claim C6: a second Start on a monitor that is started and not since
shut down returns ErrMonitorStarted and changes nothing: the returned
monitor is the same value (same overall status, last-update timestamp,
subsystem snapshots and running lifetime) and no event is published. On a
monitor that is not currently started, Start returns no error and sets the
running lifetime. -/
theorem start_idempotent (m : Monitor) (t : Nat) :
    (m.cancel = true →
      m.start t = (some MonitorErr.errMonitorStarted, m, [])) ∧
    (m.cancel = false →
      (m.start t).1 = none ∧ ((m.start t).2.1).cancel = true) := by
  constructor
  · intro h
    simp [Monitor.start, h]
  · intro h
    simp [Monitor.start, h]

/-- The monitor monitorOne after a successful Start. -/
def monitorOneStarted : Monitor := (monitorOne.start 1).2.1

theorem start_idempotent_witness :
    monitorOneStarted.start 3 =
      (some MonitorErr.errMonitorStarted, monitorOneStarted, []) ∧
    ((monitorOne.start 1).1 = none ∧ ((monitorOne.start 1).2.1).cancel = true) :=
  ⟨(start_idempotent monitorOneStarted 3).1 rfl,
   (start_idempotent monitorOne 1).2 rfl⟩

/-- Claim C7: Shutdown on a monitor that is not currently started (before
any Start, or after a previous Shutdown) returns ErrMonitorShutdown and
changes nothing. On a started monitor, Shutdown succeeds, cancels only the
probe lifetime, and keeps every subsystem snapshot, the overall status and
the last-update timestamp unchanged; afterwards a manual Update on any
subsystem still runs the full locked sequence: it stamps the aggregate
with the update's timestamp and recomputes the overall status from the
updated trackers, publishing to the registered listeners, so the published
aggregate differs whenever the timestamp does. -/
theorem shutdown_behavior (m : Monitor) (i : Nat) (s : Status)
    (err : Option GoError) (t : Nat) :
    (m.cancel = false →
      m.shutdown = (some MonitorErr.errMonitorShutdown, m)) ∧
    (m.cancel = true →
      m.shutdown = (none, { m with cancel := false }) ∧
      ((m.shutdown.2.update i s err t).1.lastUpdate = t ∧
       (m.shutdown.2.update i s err t).1.status =
         computeOverall (m.shutdown.2.update i s err t).1.trackers ∧
       (m.shutdown.2.update i s err t).2.2 =
         onMonitorEvent m.listeners (m.shutdown.2.update i s err t).2.1) ∧
      (t ≠ m.lastUpdate →
        (m.shutdown.2.update i s err t).1.lastUpdate ≠ m.shutdown.2.lastUpdate)) := by
  constructor
  · intro h
    simp [Monitor.shutdown, h]
  · intro h
    have hs : m.shutdown = (none, { m with cancel := false }) := by
      simp [Monitor.shutdown, h]
    refine ⟨hs, ⟨rfl, rfl, ?_⟩, ?_⟩
    · rw [hs]
      rfl
    · intro hne
      rw [hs]
      exact hne

theorem shutdown_behavior_witness :
    monitorOneStarted.shutdown =
      (none, { monitorOneStarted with cancel := false }) ∧
    (monitorOneStarted.shutdown.2.update 0 Status.warn none 9).1.lastUpdate = 9 ∧
    (monitorOneStarted.shutdown.2.update 0 Status.warn none 9).1.lastUpdate ≠
      monitorOneStarted.shutdown.2.lastUpdate := by
  have h := shutdown_behavior monitorOneStarted 0 Status.warn none 9
  have hc : monitorOneStarted.cancel = true := rfl
  exact ⟨(h.2 hc).1, (h.2 hc).2.1.1, (h.2 hc).2.2 (by decide)⟩

theorem trackerNames_append_raw (m : Monitor) (d : Definition) :
    trackerNames { m with trackers := m.trackers ++ [rawTracker d] } =
      trackerNames m ++ [d.name] := by
  simp [trackerNames, rawTracker]

theorem applyOptions_subsystems_ok (defs : List Definition) :
    ∀ m : Monitor, (trackerNames m ++ namesOf defs).Nodup →
      applyOptions m (defs.map MonitorOption.withSubsystem) =
        .ok { m with trackers := m.trackers ++ defs.map rawTracker } := by
  induction defs with
  | nil =>
    intro m h
    simp [applyOptions]
  | cons d rest ih =>
    intro m h
    have hd : d.name ∉ trackerNames m := by
      rcases List.nodup_append.mp h with ⟨-, -, hdisj⟩
      intro hmem
      exact hdisj hmem (show d.name ∈ namesOf (d :: rest) from
        List.mem_cons_self d.name (namesOf rest))
    have h2 : (trackerNames { m with trackers := m.trackers ++ [rawTracker d] }
        ++ namesOf rest).Nodup := by
      rw [trackerNames_append_raw, List.append_assoc, List.singleton_append]
      exact h
    simp only [List.map_cons, applyOptions, applyOption, if_neg hd]
    rw [ih _ h2]
    simp [List.append_assoc]

theorem applyOptions_subsystems_error (defs : List Definition) :
    ∀ m : Monitor, (trackerNames m).Nodup →
      ¬ (trackerNames m ++ namesOf defs).Nodup →
      ∃ e, applyOptions m (defs.map MonitorOption.withSubsystem) = .error e := by
  induction defs with
  | nil =>
    intro m hm h
    exact absurd (by simpa [namesOf] using hm) h
  | cons d rest ih =>
    intro m hm h
    by_cases hd : d.name ∈ trackerNames m
    · refine ⟨"A subsystem with the name [" ++ d.name ++ "] already exists", ?_⟩
      simp only [List.map_cons, applyOptions, applyOption, if_pos hd]
    · have hm1 : (trackerNames { m with trackers := m.trackers ++ [rawTracker d] }).Nodup := by
        rw [trackerNames_append_raw]
        refine List.nodup_append.mpr ⟨hm, List.nodup_singleton _, ?_⟩
        intro a ha hmem
        rcases List.mem_singleton.mp hmem with rfl
        exact hd ha
      have h1 : ¬ (trackerNames { m with trackers := m.trackers ++ [rawTracker d] }
          ++ namesOf rest).Nodup := by
        rw [trackerNames_append_raw, List.append_assoc, List.singleton_append]
        exact h
      obtain ⟨e, he⟩ := ih _ hm1 h1
      exact ⟨e, by simp only [List.map_cons, applyOptions, applyOption, if_neg hd]
                   exact he⟩

/-- The tracker produced for one definition by NewMonitor: registration
through WithSubsystem followed by the initialization pass. -/
def mkTracker (dpi : Int) (t0 : Nat) (d : Definition) : SubsystemTracker :=
  initTracker dpi t0 (rawTracker d)

/-- The monitor value produced by newMonitorOf on distinct names. -/
def mkMonitor (defs : List Definition) (t0 : Nat) : Monitor :=
  { defaultProbeInterval := defaultProbeIntervalConst
    trackers := defs.map (mkTracker defaultProbeIntervalConst t0)
    listeners := []
    status := .good
    lastUpdate := 0
    cancel := false }

theorem newMonitorOf_ok (defs : List Definition) (t0 : Nat)
    (h : (namesOf defs).Nodup) :
    newMonitorOf defs t0 = .ok (mkMonitor defs t0) := by
  unfold newMonitorOf NewMonitor
  rw [applyOptions_subsystems_ok defs emptyMonitor
    (by simpa [emptyMonitor, trackerNames] using h)]
  simp [emptyMonitor, mkMonitor, mkTracker, List.map_map, Function.comp_def]

theorem newMonitorOf_error (defs : List Definition) (t0 : Nat)
    (h : ¬ (namesOf defs).Nodup) :
    ∃ e, newMonitorOf defs t0 = .error e := by
  obtain ⟨e, he⟩ := applyOptions_subsystems_error defs emptyMonitor
    (by simp [emptyMonitor, trackerNames])
    (by simpa [emptyMonitor, trackerNames] using h)
  refine ⟨e, ?_⟩
  unfold newMonitorOf NewMonitor
  rw [he]

/-- Claim C5: construction from a list of definitions in which two
definitions share a name fails with the duplicate-name error and produces
no Monitor; with pairwise-distinct names the duplicate-name error does not
occur and a Monitor is produced. -/
theorem duplicate_name_construction (defs : List Definition) (t0 : Nat) :
    (¬ (namesOf defs).Nodup → ∃ e, newMonitorOf defs t0 = Except.error e) ∧
    ((namesOf defs).Nodup → ∃ m, newMonitorOf defs t0 = Except.ok m) := by
  refine ⟨newMonitorOf_error defs t0, fun h => ⟨_, newMonitorOf_ok defs t0 h⟩⟩

/-- A single critical subsystem definition whose initial status is Bad. -/
def defCriticalBad : Definition :=
  { name := "a", status := .bad, nonCritical := false, hasProbe := false
    probeInterval := 0, attributes := [] }

theorem duplicate_name_construction_witness :
    (∃ e, newMonitorOf [defCriticalBad, defCriticalBad] 0 = Except.error e) ∧
    (∃ m, newMonitorOf [defCriticalBad] 0 = Except.ok m) :=
  ⟨(duplicate_name_construction [defCriticalBad, defCriticalBad] 0).1 (by decide),
   (duplicate_name_construction [defCriticalBad] 0).2 (by decide)⟩

theorem mkTracker_nonCritical (dpi : Int) (t0 : Nat) (d : Definition) :
    (mkTracker dpi t0 d).definition.nonCritical = d.nonCritical := by
  unfold mkTracker initTracker
  split_ifs <;> rfl

theorem mkTracker_status (dpi : Int) (t0 : Nat) (d : Definition) :
    (mkTracker dpi t0 d).current.status = d.status := rfl

theorem criticalStatuses_mkTracker (dpi : Int) (t0 : Nat) :
    ∀ defs : List Definition,
      criticalStatuses (defs.map (mkTracker dpi t0)) =
        (defs.filter (fun d => !d.nonCritical)).map Definition.status := by
  intro defs
  induction defs with
  | nil => rfl
  | cons d rest ih =>
    cases hnc : d.nonCritical with
    | true =>
      have h1 : criticalStatuses
          (mkTracker dpi t0 d :: rest.map (mkTracker dpi t0)) =
          criticalStatuses (rest.map (mkTracker dpi t0)) := by
        simp [criticalStatuses, List.filter_cons, mkTracker_nonCritical, hnc]
      rw [List.map_cons, h1, ih]
      simp [List.filter_cons, hnc]
    | false =>
      have h1 : criticalStatuses
          (mkTracker dpi t0 d :: rest.map (mkTracker dpi t0)) =
          d.status :: criticalStatuses (rest.map (mkTracker dpi t0)) := by
        simp [criticalStatuses, List.filter_cons, mkTracker_nonCritical, hnc,
          mkTracker_status]
      rw [List.map_cons, h1, ih]
      simp [List.filter_cons, hnc]

theorem nonCriticalStatuses_mkTracker (dpi : Int) (t0 : Nat) :
    ∀ defs : List Definition,
      nonCriticalStatuses (defs.map (mkTracker dpi t0)) =
        (defs.filter (fun d => d.nonCritical)).map Definition.status := by
  intro defs
  induction defs with
  | nil => rfl
  | cons d rest ih =>
    cases hnc : d.nonCritical with
    | true =>
      have h1 : nonCriticalStatuses
          (mkTracker dpi t0 d :: rest.map (mkTracker dpi t0)) =
          d.status :: nonCriticalStatuses (rest.map (mkTracker dpi t0)) := by
        simp [nonCriticalStatuses, List.filter_cons, mkTracker_nonCritical, hnc,
          mkTracker_status]
      rw [List.map_cons, h1, ih]
      simp [List.filter_cons, hnc]
    | false =>
      have h1 : nonCriticalStatuses
          (mkTracker dpi t0 d :: rest.map (mkTracker dpi t0)) =
          nonCriticalStatuses (rest.map (mkTracker dpi t0)) := by
        simp [nonCriticalStatuses, List.filter_cons, mkTracker_nonCritical, hnc]
      rw [List.map_cons, h1, ih]
      simp [List.filter_cons, hnc]

theorem specOverall_mkTracker (dpi : Int) (t0 : Nat) (defs : List Definition) :
    specOverall (defs.map (mkTracker dpi t0)) = specOverallOfDefs defs := by
  unfold specOverall specOverallOfDefs
  rw [criticalStatuses_mkTracker, nonCriticalStatuses_mkTracker]

/-- Claim C2 counterexample: for the single critical definition with
initial status Bad, construction succeeds but the overall status queryable
immediately after construction is Good, while the reference formula over
the initial statuses gives Bad; so the pre-Start aggregate does not equal
the formula. -/
theorem initial_status_counterexample :
    (newMonitorOf [defCriticalBad] 0).map Monitor.status =
      Except.ok Status.good ∧
    (newMonitorOf [defCriticalBad] 0).map (fun m => specOverall m.trackers) =
      Except.ok Status.bad ∧
    Status.good ≠ Status.bad := by
  refine ⟨rfl, ?_, by decide⟩
  rfl

/-- Claim C2 (amended): for every list of definitions with
pairwise-distinct names, NewMonitor succeeds; the aggregate status
queryable immediately after construction (before Start) is StatusGood
irrespective of the initial statuses; the reference formula over the
initial statuses is first computed when Start is called. -/
theorem initial_status_amended (defs : List Definition) (t0 t1 : Nat)
    (h : (namesOf defs).Nodup) :
    ∃ m, newMonitorOf defs t0 = Except.ok m ∧
      m.status = Status.good ∧
      ((m.start t1).2.1).status = specOverallOfDefs defs := by
  refine ⟨mkMonitor defs t0, newMonitorOf_ok defs t0 h, rfl, ?_⟩
  have hred : (((mkMonitor defs t0).start t1).2.1).status =
      computeOverall (defs.map (mkTracker defaultProbeIntervalConst t0)) := rfl
  rw [hred, computeOverall_eq_spec, specOverall_mkTracker]

theorem initial_status_amended_witness :
    ∃ m, newMonitorOf [defCriticalBad] 0 = Except.ok m ∧
      m.status = Status.good ∧
      ((m.start 1).2.1).status = specOverallOfDefs [defCriticalBad] :=
  initial_status_amended [defCriticalBad] 0 1 (by decide)

/-- Claim C8: the error-to-status mapping of error.go: nil maps to Good; a
non-nil error whose Unwrap chain implements SelfStatuser maps to the
reported severity; otherwise, one whose chain implements SelfBooler maps to
Good when it reports true and Bad when it reports false; every other
non-nil error maps to Bad. A probe result (s, err) recorded via Update
stores s as the subsystem status and err as its last error (absent exactly
when err is nil). -/
theorem error_status_convention (e : GoError) (s : Status) (b : Bool)
    (m : Monitor) (i : Nat) (st : Status) (serr : Option GoError) (t : Nat)
    (tr : SubsystemTracker) :
    ErrorStatus none = Status.good ∧
    (asSelfStatuser e = some s → ErrorStatus (some e) = s) ∧
    (asSelfStatuser e = none → asSelfBooler e = some b →
      ErrorStatus (some e) = if b then Status.good else Status.bad) ∧
    (asSelfStatuser e = none → asSelfBooler e = none →
      ErrorStatus (some e) = Status.bad) ∧
    (m.trackers[i]? = some tr →
      (m.update i st serr t).1.trackers[i]? =
        some { tr with current :=
          { tr.current with status := st, lastError := serr, lastUpdate := t } }) := by
  have ht : (m.update i st serr t).1.trackers =
      modifyTracker m.trackers i (fun x =>
        { x with current :=
            { x.current with status := st, lastError := serr, lastUpdate := t } }) :=
    rfl
  refine ⟨rfl, ?_, ?_, ?_, ?_⟩
  · intro h
    simp [ErrorStatus, h]
  · intro h1 h2
    cases b <;> simp [ErrorStatus, h1, h2]
  · intro h1 h2
    simp [ErrorStatus, h1, h2]
  · intro h
    rw [ht, modifyTracker_getElem, if_pos rfl, h]
    rfl

theorem error_status_convention_witness :
    ErrorStatus (some (GoError.selfStatus Status.warn "w")) = Status.warn ∧
    ErrorStatus (some (GoError.selfBool false "b")) = Status.bad ∧
    ErrorStatus (some (GoError.base "x")) = Status.bad ∧
    (monitorOne.update 0 Status.warn (some (GoError.base "x")) 5).1.trackers[0]? =
      some { trCriticalGoodA with current :=
        { trCriticalGoodA.current with
          status := Status.warn
          lastError := some (GoError.base "x")
          lastUpdate := 5 } } := by
  refine ⟨?_, ?_, ?_, ?_⟩
  · exact (error_status_convention (GoError.selfStatus Status.warn "w")
      Status.warn true monitorOne 0 Status.warn none 5 trCriticalGoodA).2.1 rfl
  · exact (error_status_convention (GoError.selfBool false "b")
      Status.warn false monitorOne 0 Status.warn none 5 trCriticalGoodA).2.2.1 rfl rfl
  · exact (error_status_convention (GoError.base "x")
      Status.warn false monitorOne 0 Status.warn none 5 trCriticalGoodA).2.2.2.1 rfl rfl
  · exact (error_status_convention (GoError.base "x")
      Status.warn false monitorOne 0 Status.warn (some (GoError.base "x")) 5
      trCriticalGoodA).2.2.2.2 rfl

/-- A noncritical definition with a name and metadata: the failing input
for the snapshot identity fields. -/
def defNoncritDb : Definition :=
  { name := "db", status := .good, nonCritical := true, hasProbe := false
    probeInterval := 0, attributes := [("region", "east")] }

/-- Claim C9 evaluated at the failing input: the initialization pass of
NewMonitor in the listener revision copies only the status, the attributes
and the shared timestamp into each snapshot, so the snapshot exposed
through queries and through published events carries an empty Name and a
false NonCritical flag even though its definition carries the name db and
NonCritical true; the attributes are carried over. -/
theorem snapshot_identity_dropped :
    (newMonitorOf [defNoncritDb] 0).map
        (fun m => m.subsystems.map (fun s => (s.name, s.nonCritical, s.attributes))) =
      Except.ok [("", false, [("region", "east")])] ∧
    (newMonitorOf [defNoncritDb] 0).map
        (fun m => ((m.updateStatusUnderLock 1).2.1).subsystems.map
          (fun s => (s.name, s.nonCritical))) =
      Except.ok [("", false)] ∧
    defNoncritDb.name = "db" ∧
    defNoncritDb.nonCritical = true :=
  ⟨rfl, rfl, rfl, rfl⟩

/-- Claim C10 evaluated at the failing input: AddStatus wraps the given
error and the result unwraps to it, but the statusError struct of error.go
declares no method Status() Status, so the wrapper does not satisfy
SelfStatuser and the round trip through ErrorStatus yields Bad instead of
the attached Good. -/
theorem addStatus_roundtrip_fails :
    Unwrap (AddStatus (GoError.base "x") Status.good) = some (GoError.base "x") ∧
    asSelfStatuser (AddStatus (GoError.base "x") Status.good) = none ∧
    ErrorStatus (some (AddStatus (GoError.base "x") Status.good)) = Status.bad ∧
    Status.bad ≠ Status.good :=
  ⟨rfl, rfl, rfl, by decide⟩

end Haelu
